import Mathlib

/-!
Verification of the ProctorForge server core against its specification.

The Python source is shallowly embedded: floats are modelled as rationals,
dictionaries as association lists, and each service function is translated
into an executable Lean definition keeping the source's structure and names.
-/

/- ──────────────────────────────────────────────────────────────────────
   Model of Python rounding: round(x, n) uses round-half-to-even.
   ────────────────────────────────────────────────────────────────────── -/

/-- Round-half-to-even of a rational to an integer (model of Python round(x)). -/
def pyRoundInt (x : ℚ) : ℤ :=
  let f : ℤ := ⌊x⌋
  let r : ℚ := x - f
  if r < 1/2 then f
  else if 1/2 < r then f + 1
  else if f % 2 = 0 then f else f + 1

/-- Model of Python round(x, n) on rationals. -/
def pyRound (x : ℚ) (n : ℕ) : ℚ := (pyRoundInt (x * 10 ^ n) : ℚ) / 10 ^ n

/- ──────────────────────────────────────────────────────────────────────
   services/trust_score.py
   ────────────────────────────────────────────────────────────────────── -/

/-- Clamp of a dimension value, as written in the source:
max(0, min(100, score)). -/
def clamp100 (x : ℚ) : ℚ := max 0 (min 100 x)

/-- The dict returned by compute_trust_score. -/
structure TrustScoreResult where
  overall : ℚ
  behavior_stability : ℚ
  typing_consistency : ℚ
  coding_authenticity : ℚ
  identity_stability : ℚ
  environment_integrity : ℚ
  intervention_performance : ℚ
  risk_level : String
deriving DecidableEq

/-- Embedding of compute_trust_score (services/trust_score.py, lines 7-60).
The weighted sum is written in the iteration order of the weights dict. -/
def compute_trust_score (behavior_stability typing_consistency coding_authenticity
    identity_stability environment_integrity intervention_performance : ℚ) :
    TrustScoreResult :=
  let sb := clamp100 behavior_stability
  let st := clamp100 typing_consistency
  let sc := clamp100 coding_authenticity
  let si := clamp100 identity_stability
  let se := clamp100 environment_integrity
  let sp := clamp100 intervention_performance
  let overall := sb * 0.20 + st * 0.15 + sc * 0.20 + si * 0.20 + se * 0.10 + sp * 0.15
  let risk_level :=
    if overall ≥ 80 then "low"
    else if overall ≥ 60 then "medium"
    else if overall ≥ 40 then "high"
    else "critical"
  ⟨pyRound overall 2, sb, st, sc, si, se, sp, risk_level⟩

/-- Spec-side formula: the fixed weighted sum of the clamped dimensions,
written with the spec's weights 0.20, 0.15, 0.20, 0.20, 0.10, 0.15. -/
def specWeightedOverall (b t c i e p : ℚ) : ℚ :=
  0.20 * clamp100 b + 0.15 * clamp100 t + 0.20 * clamp100 c +
  0.20 * clamp100 i + 0.10 * clamp100 e + 0.15 * clamp100 p

lemma clamp100_nonneg (x : ℚ) : 0 ≤ clamp100 x := le_max_left _ _

lemma clamp100_le_100 (x : ℚ) : clamp100 x ≤ 100 := by
  unfold clamp100
  rw [max_le_iff]
  exact ⟨by norm_num, min_le_left _ _⟩

lemma risk_chain_iff (x : ℚ) :
    (((if x ≥ 80 then "low" else if x ≥ 60 then "medium"
       else if x ≥ 40 then "high" else "critical") = "low") ↔ 80 ≤ x) ∧
    (((if x ≥ 80 then "low" else if x ≥ 60 then "medium"
       else if x ≥ 40 then "high" else "critical") = "medium") ↔ 60 ≤ x ∧ x < 80) ∧
    (((if x ≥ 80 then "low" else if x ≥ 60 then "medium"
       else if x ≥ 40 then "high" else "critical") = "high") ↔ 40 ≤ x ∧ x < 60) ∧
    (((if x ≥ 80 then "low" else if x ≥ 60 then "medium"
       else if x ≥ 40 then "high" else "critical") = "critical") ↔ x < 40) := by
  split_ifs with h1 h2 h3
  · exact ⟨⟨fun _ => h1, fun _ => rfl⟩,
      ⟨fun hh => absurd hh (by decide), fun hh => by exfalso; linarith [hh.2]⟩,
      ⟨fun hh => absurd hh (by decide), fun hh => by exfalso; linarith [hh.2]⟩,
      ⟨fun hh => absurd hh (by decide), fun hh => by exfalso; linarith⟩⟩
  · push_neg at h1
    exact ⟨⟨fun hh => absurd hh (by decide), fun hh => by exfalso; linarith⟩,
      ⟨fun _ => ⟨h2, h1⟩, fun _ => rfl⟩,
      ⟨fun hh => absurd hh (by decide), fun hh => by exfalso; linarith [hh.2]⟩,
      ⟨fun hh => absurd hh (by decide), fun hh => by exfalso; linarith⟩⟩
  · push_neg at h1 h2
    exact ⟨⟨fun hh => absurd hh (by decide), fun hh => by exfalso; linarith⟩,
      ⟨fun hh => absurd hh (by decide), fun hh => by exfalso; linarith [hh.1]⟩,
      ⟨fun _ => ⟨h3, h2⟩, fun _ => rfl⟩,
      ⟨fun hh => absurd hh (by decide), fun hh => by exfalso; linarith⟩⟩
  · push_neg at h1 h2 h3
    exact ⟨⟨fun hh => absurd hh (by decide), fun hh => by exfalso; linarith⟩,
      ⟨fun hh => absurd hh (by decide), fun hh => by exfalso; linarith [hh.1]⟩,
      ⟨fun hh => absurd hh (by decide), fun hh => by exfalso; linarith [hh.1]⟩,
      ⟨fun _ => h3, fun _ => rfl⟩⟩

/-- Claim C1: compute_trust_score clamps every dimension to the interval
from 0 to 100, returns overall equal to the fixed weighted sum
0.20, 0.15, 0.20, 0.20, 0.10, 0.15 of the clamped values rounded to two
decimals, and the risk_level is low iff the weighted sum is at least 80,
medium iff it lies in the interval from 60 up to but excluding 80, high
iff it lies in the interval from 40 up to but excluding 60, and critical
otherwise. -/
theorem compute_trust_score_spec (b t c i e p : ℚ) :
    (compute_trust_score b t c i e p).behavior_stability = clamp100 b ∧
    (compute_trust_score b t c i e p).typing_consistency = clamp100 t ∧
    (compute_trust_score b t c i e p).coding_authenticity = clamp100 c ∧
    (compute_trust_score b t c i e p).identity_stability = clamp100 i ∧
    (compute_trust_score b t c i e p).environment_integrity = clamp100 e ∧
    (compute_trust_score b t c i e p).intervention_performance = clamp100 p ∧
    (∀ x : ℚ, 0 ≤ clamp100 x ∧ clamp100 x ≤ 100) ∧
    (compute_trust_score b t c i e p).overall =
      pyRound (specWeightedOverall b t c i e p) 2 ∧
    ((compute_trust_score b t c i e p).risk_level = "low" ↔
      80 ≤ specWeightedOverall b t c i e p) ∧
    ((compute_trust_score b t c i e p).risk_level = "medium" ↔
      60 ≤ specWeightedOverall b t c i e p ∧ specWeightedOverall b t c i e p < 80) ∧
    ((compute_trust_score b t c i e p).risk_level = "high" ↔
      40 ≤ specWeightedOverall b t c i e p ∧ specWeightedOverall b t c i e p < 60) ∧
    ((compute_trust_score b t c i e p).risk_level = "critical" ↔
      specWeightedOverall b t c i e p < 40) := by
  have hsum : clamp100 b * 0.20 + clamp100 t * 0.15 + clamp100 c * 0.20 +
      clamp100 i * 0.20 + clamp100 e * 0.10 + clamp100 p * 0.15 =
      specWeightedOverall b t c i e p := by
    unfold specWeightedOverall; ring
  have h := risk_chain_iff (specWeightedOverall b t c i e p)
  refine ⟨rfl, rfl, rfl, rfl, rfl, rfl,
    fun x => ⟨clamp100_nonneg x, clamp100_le_100 x⟩, ?_, ?_, ?_, ?_, ?_⟩ <;>
    simp only [compute_trust_score, hsum]
  · exact h.1
  · exact h.2.1
  · exact h.2.2.1
  · exact h.2.2.2

/- ──────────────────────────────────────────────────────────────────────
   services/sandbox.py
   ────────────────────────────────────────────────────────────────────── -/

/-- Result of one code execution (class SandboxResult, sandbox.py lines 17-35). -/
structure SandboxResult where
  stdout : String
  stderr : String
  exit_code : ℤ
  timed_out : Bool
  execution_time : ℚ
deriving DecidableEq

/-- Outcome of the underlying process run awaited by the sandbox: it either
completes with captured streams and a return code, exceeds the timeout, or
fails to spawn with an exception message. -/
inductive ProcOutcome where
  | completed (stdout stderr : String) (returncode : ℤ) (duration : ℚ)
  | timedOut
  | failed (message : String) (duration : ℚ)
deriving DecidableEq

/-- Docker image and argv for one language. -/
structure LangConfig where
  image : String
  cmd : List String
deriving DecidableEq

/-- config.py SANDBOX_IMAGE. -/
def sandboxImage : String := "proctorforge-sandbox"

/-- lang_config lookup in execute_code_docker (sandbox.py lines 59-64):
lang_config.get(language, lang_config of python). -/
def lang_config_docker (code language : String) : LangConfig :=
  if language = "python" then ⟨sandboxImage, ["python3", "-c", code]⟩
  else if language = "javascript" then ⟨"node:20-slim", ["node", "-e", code]⟩
  else ⟨sandboxImage, ["python3", "-c", code]⟩

/-- lang_cmd lookup in execute_code_subprocess (sandbox.py lines 146-151),
parameterized by the interpreter path sys.executable. -/
def lang_cmd_subprocess (sys_exe code language : String) : List String :=
  if language = "python" then [sys_exe, "-c", code]
  else if language = "javascript" then ["node", "-e", code]
  else [sys_exe, "-c", code]

/-- Result construction of execute_code_docker (sandbox.py lines 82-121),
as a function of the awaited process outcome. On completion the exit code is
the return code (the source's `or 0` only replaces a missing code by 0); on
asyncio.TimeoutError the container is killed and a definite result with exit
code 124 and timed_out true is returned; any other exception yields exit 1. -/
def execute_code_docker (outcome : ProcOutcome) (timeout : ℚ) : SandboxResult :=
  match outcome with
  | .completed out err rc dur => ⟨out, err, rc, false, dur⟩
  | .timedOut => ⟨"", "Execution timed out", 124, true, timeout⟩
  | .failed msg dur => ⟨"", msg, 1, false, dur⟩

/-- Denylist of the subprocess fallback (sandbox.py lines 130-134). -/
def dangerous_patterns : List String :=
  ["import os", "import subprocess", "import sys", "import shutil",
   "__import__", "eval(", "exec(", "open(", "import socket",
   "import http", "import urllib", "import requests"]

/-- pat is a leading segment of s. -/
def charsLeads : List Char → List Char → Bool
  | [], _ => true
  | _ :: _, [] => false
  | a :: as, b :: bs => a = b && charsLeads as bs

/-- pat occurs as a contiguous segment of s (model of Python `pat in s`). -/
def charsHasSub (p : List Char) : List Char → Bool
  | [] => charsLeads p []
  | a :: rest => charsLeads p (a :: rest) || charsHasSub p rest

/-- Substring containment on strings. -/
def strContains (s pat : String) : Bool := charsHasSub pat.data s.data

/-- Result construction of execute_code_subprocess (sandbox.py lines 124-181):
scan the denylist first and refuse to run on a hit (quote characters of the
source's message are omitted); otherwise the awaited process outcome is
resolved exactly as in the Docker strategy. -/
def execute_code_subprocess (code : String) (outcome : ProcOutcome) (timeout : ℚ) :
    SandboxResult :=
  match dangerous_patterns.find? (fun pat => strContains code pat) with
  | some pat => ⟨"", "Blocked: " ++ pat ++ " is not allowed in sandbox mode", 1, false, 0⟩
  | none =>
    match outcome with
    | .completed out err rc dur => ⟨out, err, rc, false, dur⟩
    | .timedOut => ⟨"", "Execution timed out", 124, true, timeout⟩
    | .failed msg dur => ⟨"", msg, 1, false, dur⟩

/-- Whitespace stripped by Python str.strip(). -/
def isPySpace (c : Char) : Bool :=
  c = ' ' || c = '\t' || c = '\n' || c = '\r' || c = '\x0b' || c = '\x0c'

/-- Model of Python str.strip(). -/
def pyStrip (s : String) : String :=
  ⟨((s.data.dropWhile isPySpace).reverse.dropWhile isPySpace).reverse⟩

/-- One test case as read by run_test_cases: tc.get of input and of
expected_output. -/
structure TestCase where
  input : String
  expected_output : String
deriving DecidableEq

/-- One entry of the results list built by run_test_cases. -/
structure CaseResult where
  test_case : ℕ
  passed : Bool
  expected : String
  actual : String
  stderr : Option String
  timed_out : Bool
  execution_time : ℚ
deriving DecidableEq

/-- Loop body of run_test_cases (sandbox.py lines 199-219). The per-case
execution (execute_code with the fixed timeout of 10) is abstracted as the
function ex from stdin to SandboxResult; each case calls it independently. -/
def caseResultOf (ex : String → SandboxResult) (i : ℕ) (tc : TestCase) : CaseResult :=
  let stdin_data := tc.input
  let expected := pyStrip tc.expected_output
  let result := ex stdin_data
  let actual := pyStrip result.stdout
  let test_passed := (actual == expected) && (result.exit_code == 0) && !result.timed_out
  ⟨i + 1, test_passed, expected, actual,
    if result.stderr = "" then none else some (result.stderr.take 200),
    result.timed_out, result.execution_time⟩

/-- The enumerate loop of run_test_cases. -/
def gradeCases (ex : String → SandboxResult) : ℕ → List TestCase → List CaseResult
  | _, [] => []
  | i, tc :: rest => caseResultOf ex i tc :: gradeCases ex (i + 1) rest

/-- The dict returned by run_test_cases. -/
structure GradeReport where
  total : ℕ
  passed : ℕ
  failed : ℕ
  score : ℚ
  results : List CaseResult
deriving DecidableEq

/-- Embedding of run_test_cases (sandbox.py lines 193-227). -/
def run_test_cases (ex : String → SandboxResult) (test_cases : List TestCase) :
    GradeReport :=
  let results := gradeCases ex 0 test_cases
  let total := test_cases.length
  let passed := (results.filter (fun r => r.passed)).length
  ⟨total, passed, total - passed,
    if 0 < total then pyRound ((passed : ℚ) / total * 100) 1 else 0, results⟩

/-- The pass condition of one test case, exactly the test_passed expression of
the source. -/
def casePassB (ex : String → SandboxResult) (tc : TestCase) : Bool :=
  (pyStrip (ex tc.input).stdout == pyStrip tc.expected_output) &&
  ((ex tc.input).exit_code == 0) && !(ex tc.input).timed_out

lemma caseResultOf_passed (ex : String → SandboxResult) (i : ℕ) (tc : TestCase) :
    (caseResultOf ex i tc).passed = casePassB ex tc := rfl

lemma gradeCases_passed_count (ex : String → SandboxResult) (i : ℕ)
    (tcs : List TestCase) :
    ((gradeCases ex i tcs).filter (fun r => r.passed)).length =
      (tcs.filter (casePassB ex)).length := by
  induction tcs generalizing i with
  | nil => rfl
  | cons tc rest ih =>
    simp only [gradeCases, List.filter_cons, caseResultOf_passed]
    split <;> simp [ih]

/-- Split a character list at newline characters. -/
def splitLinesAux : List Char → List Char → List String
  | [], acc => [⟨acc.reverse⟩]
  | c :: rest, acc =>
    if c = '\n' then ⟨acc.reverse⟩ :: splitLinesAux rest []
    else splitLinesAux rest (c :: acc)

/-- Lines of a string, split at every newline. -/
def pySplitNewline (s : String) : List String := splitLinesAux s.data []

/-- Decimal value of a digit string. -/
def parseNatAux : ℕ → List Char → ℕ
  | acc, [] => acc
  | acc, c :: rest => parseNatAux (acc * 10 + (c.toNat - 48)) rest

/-- Behaviour of a program that reads two lines from stdin and prints their
sum: the executor used for the concrete grading example. -/
def sumTwoLinesExec (stdin : String) : SandboxResult :=
  let ls := pySplitNewline stdin
  let a := parseNatAux 0 (ls.getD 0 "").data
  let b := parseNatAux 0 (ls.getD 1 "").data
  ⟨toString (a + b) ++ "\n", "", 0, false, 1/100⟩

/-- Claim C2: run_test_cases executes the code once per test case through the
per-case executor, counts a case as passed exactly when the stripped stdout
equals the stripped expected output, the exit code is zero and the run did
not time out, and returns score round(passed/total*100, 1), with score 0 for
an empty test-case list; on the test case with input "3\n4\n" and expected
output "7\n" run against a program that reads two lines and prints their sum
it reports passed 1, total 1, score 100.0. -/
theorem run_test_cases_spec (ex : String → SandboxResult) (tcs : List TestCase) :
    (run_test_cases ex tcs).total = tcs.length ∧
    (∀ tc : TestCase, casePassB ex tc = true ↔
      (pyStrip (ex tc.input).stdout = pyStrip tc.expected_output ∧
       (ex tc.input).exit_code = 0 ∧ (ex tc.input).timed_out = false)) ∧
    (run_test_cases ex tcs).passed = (tcs.filter (casePassB ex)).length ∧
    (run_test_cases ex tcs).score =
      (if 0 < tcs.length then
        pyRound (((tcs.filter (casePassB ex)).length : ℚ) / tcs.length * 100) 1
       else 0) ∧
    (run_test_cases ex []).score = 0 ∧
    (run_test_cases sumTwoLinesExec [⟨"3\n4\n", "7\n"⟩]).passed = 1 ∧
    (run_test_cases sumTwoLinesExec [⟨"3\n4\n", "7\n"⟩]).total = 1 ∧
    (run_test_cases sumTwoLinesExec [⟨"3\n4\n", "7\n"⟩]).score = 100 := by
  refine ⟨rfl, ?_, ?_, ?_, rfl, ?_, rfl, ?_⟩
  · intro tc
    simp [casePassB, Bool.and_eq_true, beq_iff_eq, Bool.not_eq_true', and_assoc]
  · simp only [run_test_cases]
    exact gradeCases_passed_count ex 0 tcs
  · simp only [run_test_cases]
    rw [gradeCases_passed_count ex 0 tcs]
  · decide
  · have hflt : ((gradeCases sumTwoLinesExec 0
        [⟨"3\n4\n", "7\n"⟩]).filter (fun r => r.passed)).length = 1 := by decide
    have hfloor : ⌊(1000 : ℚ)⌋ = 1000 := by
      rw [show (1000 : ℚ) = ((1000 : ℤ) : ℚ) by norm_num]
      exact Int.floor_intCast 1000
    have hpr : pyRound 100 1 = 100 := by
      unfold pyRound pyRoundInt
      norm_num [hfloor]
    simp only [run_test_cases]
    rw [hflt]
    norm_num [hpr]

/-- Claim C7: on a run that exceeds the timeout both execution strategies
return a definite SandboxResult with timed_out true and exit code 124 (the
subprocess fallback provided its denylist scan let the code run at all), and
the grading pass condition is false for any timed-out result regardless of
the captured stdout. -/
theorem timeout_definite_result_spec :
    (∀ t : ℚ, execute_code_docker ProcOutcome.timedOut t =
      ⟨"", "Execution timed out", 124, true, t⟩) ∧
    (∀ (code : String) (t : ℚ),
      dangerous_patterns.find? (fun pat => strContains code pat) = none →
      execute_code_subprocess code ProcOutcome.timedOut t =
        ⟨"", "Execution timed out", 124, true, t⟩) ∧
    (∀ (r : SandboxResult) (tc : TestCase) (ex : String → SandboxResult),
      r.timed_out = true → ex tc.input = r → casePassB ex tc = false) := by
  refine ⟨fun t => rfl, fun code t h => ?_, fun r tc ex hto hex => ?_⟩
  · simp [execute_code_subprocess, h]
  · simp [casePassB, hex, hto]

theorem timeout_definite_result_spec_witness :
    execute_code_subprocess "print(21+21)" ProcOutcome.timedOut 10 =
      ⟨"", "Execution timed out", 124, true, 10⟩ ∧
    casePassB (fun _ => ⟨"7\n", "", 124, true, 10⟩) ⟨"3\n4\n", "7\n"⟩ = false :=
  ⟨timeout_definite_result_spec.2.1 "print(21+21)" 10 (by decide),
   timeout_definite_result_spec.2.2 ⟨"7\n", "", 124, true, 10⟩ ⟨"3\n4\n", "7\n"⟩
     (fun _ => ⟨"7\n", "", 124, true, 10⟩) rfl rfl⟩

/-- Claim C10: a language tag other than python and javascript selects the
python configuration in both strategies, so the code is run with the Python
interpreter rather than rejected. -/
theorem unknown_language_runs_python_spec (language code sys_exe : String)
    (h1 : language ≠ "python") (h2 : language ≠ "javascript") :
    lang_config_docker code language = lang_config_docker code "python" ∧
    (lang_config_docker code language).cmd = ["python3", "-c", code] ∧
    lang_cmd_subprocess sys_exe code language = lang_cmd_subprocess sys_exe code "python" ∧
    lang_cmd_subprocess sys_exe code language = [sys_exe, "-c", code] := by
  simp [lang_config_docker, lang_cmd_subprocess, h1, h2]

theorem unknown_language_runs_python_spec_witness :
    lang_config_docker "print(1)" "ruby" = lang_config_docker "print(1)" "python" ∧
    (lang_config_docker "print(1)" "ruby").cmd = ["python3", "-c", "print(1)"] ∧
    lang_cmd_subprocess "python3" "print(1)" "ruby" =
      lang_cmd_subprocess "python3" "print(1)" "python" ∧
    lang_cmd_subprocess "python3" "print(1)" "ruby" = ["python3", "-c", "print(1)"] :=
  unknown_language_runs_python_spec "ruby" "print(1)" "python3" (by decide) (by decide)

/- ──────────────────────────────────────────────────────────────────────
   Association-list model of Python dicts.
   ────────────────────────────────────────────────────────────────────── -/

/-- Python dict lookup, returning none for a missing key. -/
def pyDictGet? {κ α : Type} [DecidableEq κ] : List (κ × α) → κ → Option α
  | [], _ => none
  | (k', v) :: rest, k => if k' = k then some v else pyDictGet? rest k

/-- Python dict assignment: update in place, or append a new key at the end. -/
def pyDictSet {κ α : Type} [DecidableEq κ] : List (κ × α) → κ → α → List (κ × α)
  | [], k, v => [(k, v)]
  | (k', v') :: rest, k, v =>
    if k' = k then (k, v) :: rest else (k', v') :: pyDictSet rest k v

lemma pyDictGet_set_self {κ α : Type} [DecidableEq κ]
    (d : List (κ × α)) (k : κ) (v : α) :
    pyDictGet? (pyDictSet d k v) k = some v := by
  induction d with
  | nil => simp [pyDictSet, pyDictGet?]
  | cons hd tl ih =>
    obtain ⟨k', v'⟩ := hd
    by_cases h : k' = k <;> simp [pyDictSet, pyDictGet?, h, ih]

lemma pyDictSet_set_same {κ α : Type} [DecidableEq κ]
    (d : List (κ × α)) (k : κ) (v w : α) :
    pyDictSet (pyDictSet d k v) k w = pyDictSet d k w := by
  induction d with
  | nil => simp [pyDictSet]
  | cons hd tl ih =>
    obtain ⟨k', v'⟩ := hd
    by_cases h : k' = k <;> simp [pyDictSet, h, ih]

/- ──────────────────────────────────────────────────────────────────────
   Dynamic values: apply_violation_penalty is untyped Python, and the
   heartbeat endpoint calls it with a string and a float.
   ────────────────────────────────────────────────────────────────────── -/

/-- A Python runtime value as far as apply_violation_penalty can see one:
a string, a float, or a dict of named scores. -/
inductive PyVal where
  | pstr (s : String)
  | pnum (q : ℚ)
  | pdict (entries : List (String × PyVal))

/-- The penalties table of apply_violation_penalty
(services/trust_score.py lines 68-86): event type to dimension and amount. -/
def trust_penalties : List (String × String × ℚ) :=
  [("tab_switch", "behavior_stability", 5),
   ("window_blur", "behavior_stability", 3),
   ("devtools_open", "behavior_stability", 15),
   ("copy_paste", "behavior_stability", 8),
   ("clipboard_attempt", "behavior_stability", 5),
   ("fullscreen_exit", "environment_integrity", 10),
   ("gaze_deviation", "identity_stability", 3),
   ("face_missing", "identity_stability", 10),
   ("multi_face", "identity_stability", 15),
   ("voice_mismatch", "identity_stability", 10),
   ("typing_anomaly", "typing_consistency", 8),
   ("paste_detected", "typing_consistency", 10),
   ("burst_typing", "typing_consistency", 5),
   ("high_wpm", "typing_consistency", 7),
   ("code_entropy_anomaly", "coding_authenticity", 10),
   ("large_paste", "coding_authenticity", 12),
   ("idle_timeout", "behavior_stability", 3)]

/-- Embedding of apply_violation_penalty (services/trust_score.py lines
63-92) over dynamic values; none models a raised exception. A non-string
event_type is simply not a key of the table, so the function returns
current_scores unchanged (a dict key raises TypeError: unhashable); a
non-dict current_scores raises AttributeError at current_scores.get. -/
def apply_violation_penalty (current_scores event_type : PyVal) : Option PyVal :=
  match event_type with
  | .pstr s =>
    match pyDictGet? trust_penalties s with
    | some (dimension, amount) =>
      match current_scores with
      | .pdict d =>
        match (pyDictGet? d dimension).getD (.pnum 100) with
        | .pnum cur =>
          some (.pdict (pyDictSet d dimension (.pnum (max 0 (cur - amount)))))
        | _ => none
      | _ => none
    | none => some current_scores
  | .pnum _ => some current_scores
  | .pdict _ => none

/-- The penalty application step of the heartbeat endpoint
(routers/monitoring.py lines 219-221): for each violation v the code runs
penalty = apply_violation_penalty(v type, attempt.trust_score) and then
attempt.trust_score = max(0, attempt.trust_score - penalty). The subtraction
is only defined when penalty is a number; none models the raised TypeError. -/
def heartbeat_penalty_step (vtype : String) (trust_score : ℚ) : Option ℚ :=
  match apply_violation_penalty (.pstr vtype) (.pnum trust_score) with
  | none => none
  | some (.pnum p) => some (max 0 (trust_score - p))
  | some _ => none

/- ──────────────────────────────────────────────────────────────────────
   routers/monitoring.py: heartbeat
   ────────────────────────────────────────────────────────────────────── -/

/-- One violation object built by receive_heartbeat. -/
structure HBViolation where
  vtype : String
  gap_seconds : Option ℚ
  level : Option ℚ
deriving DecidableEq

/-- Python `not x` on an Optional bool: not None is true. -/
def pyNotOpt : Option Bool → Bool
  | some b => !b
  | none => true

/-- The low_battery check of receive_heartbeat (routers/monitoring.py lines
207-212): battery_level is not None and battery_level < 0.15 and not
battery_charging. -/
def battery_violation (battery_level : Option ℚ) (battery_charging : Option Bool) :
    List HBViolation :=
  match battery_level with
  | some lvl =>
    if lvl < 0.15 ∧ pyNotOpt battery_charging = true then
      [⟨"low_battery", none, some lvl⟩] else []
  | none => []

/-- Violation detection of receive_heartbeat (routers/monitoring.py lines
180-212), with HEARTBEAT_TOLERANCE = 10: a heartbeat_gap violation carrying
the rounded gap when a previous beat exists and the gap exceeds 10 seconds,
then the tab_hidden, fullscreen_exit and low_battery checks, in source
order. -/
def receive_heartbeat_violations (last_beat : Option ℚ) (now : ℚ)
    (tab_visible fullscreen : Bool) (battery_level : Option ℚ)
    (battery_charging : Option Bool) : List HBViolation :=
  let gap_seconds := match last_beat with | some lb => now - lb | none => 0
  (if last_beat.isSome = true ∧ gap_seconds > 10 then
    [⟨"heartbeat_gap", some (pyRound gap_seconds 1), none⟩] else []) ++
  ((if !tab_visible then [⟨"tab_hidden", none, none⟩] else []) ++
   ((if !fullscreen then [⟨"fullscreen_exit", none, none⟩] else []) ++
    battery_violation battery_level battery_charging))

/-- The gap_seconds field of the heartbeat response
(routers/monitoring.py line 229). -/
def heartbeat_gap_reported (last_beat : Option ℚ) (now : ℚ) : ℚ :=
  match last_beat with
  | some lb => pyRound (now - lb) 1
  | none => 0

lemma hb_tail_no_gap (tab_visible fullscreen : Bool) (bl : Option ℚ)
    (bc : Option Bool) :
    (((if !tab_visible then [(⟨"tab_hidden", none, none⟩ : HBViolation)] else []) ++
      ((if !fullscreen then [(⟨"fullscreen_exit", none, none⟩ : HBViolation)] else []) ++
       battery_violation bl bc)).any (fun v => v.vtype == "heartbeat_gap")) = false := by
  cases tab_visible <;> cases fullscreen <;> rcases bl with _ | lvl <;>
    simp [battery_violation] <;>
    try (intro x h1 h2 hx; subst hx; simp)

/-- Claim C6: the last-seen map is updated unconditionally with the current
time; a heartbeat_gap violation is emitted exactly when a previous beat
exists and the gap exceeds the 10 second tolerance, never when the gap is
at most 10, and the violation and the response both carry the measured gap
rounded to one decimal. -/
theorem heartbeat_gap_spec (hb : List (String × ℚ)) (key : String) (now : ℚ)
    (tab_visible fullscreen : Bool) (bl : Option ℚ) (bc : Option Bool) :
    pyDictGet? (pyDictSet hb key now) key = some now ∧
    (∀ last : Option ℚ,
      ((receive_heartbeat_violations last now tab_visible fullscreen bl bc).any
        (fun v => v.vtype == "heartbeat_gap")) = true ↔
      ∃ lb, last = some lb ∧ 10 < now - lb) ∧
    (∀ lb : ℚ, now - lb ≤ 10 →
      ((receive_heartbeat_violations (some lb) now tab_visible fullscreen bl bc).any
        (fun v => v.vtype == "heartbeat_gap")) = false) ∧
    (∀ lb : ℚ, 10 < now - lb →
      (⟨"heartbeat_gap", some (pyRound (now - lb) 1), none⟩ : HBViolation) ∈
        receive_heartbeat_violations (some lb) now tab_visible fullscreen bl bc) ∧
    (∀ lb : ℚ, heartbeat_gap_reported (some lb) now = pyRound (now - lb) 1) := by
  have hiff : ∀ last : Option ℚ,
      ((receive_heartbeat_violations last now tab_visible fullscreen bl bc).any
        (fun v => v.vtype == "heartbeat_gap")) = true ↔
      ∃ lb, last = some lb ∧ 10 < now - lb := by
    intro last
    cases last with
    | none =>
      simp only [receive_heartbeat_violations]
      rw [List.any_append, hb_tail_no_gap tab_visible fullscreen bl bc, Bool.or_false]
      simp
    | some lb =>
      simp only [receive_heartbeat_violations]
      rw [List.any_append, hb_tail_no_gap tab_visible fullscreen bl bc, Bool.or_false]
      by_cases hgap : 10 < now - lb
      · rw [if_pos ⟨rfl, hgap⟩]
        simp [hgap]
      · rw [if_neg (fun hc => hgap hc.2)]
        simp [hgap]
  refine ⟨pyDictGet_set_self hb key now, hiff, ?_, ?_, fun lb => rfl⟩
  · intro lb hle
    rw [← Bool.not_eq_true]
    intro hany
    rcases (hiff (some lb)).mp hany with ⟨lb', he, hgt⟩
    rw [Option.some.injEq] at he
    subst he
    linarith
  · intro lb hgt
    simp only [receive_heartbeat_violations]
    rw [if_pos ⟨rfl, hgt⟩]
    simp

theorem heartbeat_gap_spec_witness :
    pyDictGet? (pyDictSet [("a", (0 : ℚ))] "a" 17) "a" = some 17 ∧
    ((receive_heartbeat_violations (some 0) 17 true true none none).any
      (fun v => v.vtype == "heartbeat_gap")) = true ∧
    ((receive_heartbeat_violations (some 0) (5 : ℚ) true true none none).any
      (fun v => v.vtype == "heartbeat_gap")) = false ∧
    (⟨"heartbeat_gap", some (pyRound ((17 : ℚ) - 0) 1), none⟩ : HBViolation) ∈
      receive_heartbeat_violations (some 0) 17 true true none none ∧
    heartbeat_gap_reported (some 0) 17 = pyRound ((17 : ℚ) - 0) 1 :=
  ⟨(heartbeat_gap_spec [("a", 0)] "a" 17 true true none none).1,
   ((heartbeat_gap_spec [] "a" 17 true true none none).2.1 (some 0)).mpr
     ⟨0, rfl, by norm_num⟩,
   (heartbeat_gap_spec [] "a" 5 true true none none).2.2.1 0 (by norm_num),
   (heartbeat_gap_spec [] "a" 17 true true none none).2.2.2.1 0 (by norm_num),
   (heartbeat_gap_spec [] "a" 17 true true none none).2.2.2.2 0⟩

/-- Claim C4 (evidence of a defect): with an active previous beat 3 seconds
ago, a hidden tab, no fullscreen and a low discharging battery the endpoint
detects the three independent violations, but the penalty application step
raises a TypeError for every violation type and every score, because
apply_violation_penalty is invoked as (event type, trust_score) although its
signature is (current_scores, event_type): the call returns the event-type
string and the code then subtracts a string from a float. -/
theorem heartbeat_penalty_application_bug :
    receive_heartbeat_violations (some 0) 3 false false (some 0.1) (some false) =
      [⟨"tab_hidden", none, none⟩, ⟨"fullscreen_exit", none, none⟩,
       ⟨"low_battery", none, some 0.1⟩] ∧
    (∀ (vtype : String) (ts : ℚ), heartbeat_penalty_step vtype ts = none) := by
  constructor
  · norm_num [receive_heartbeat_violations, battery_violation, pyNotOpt]
  · intro vtype ts
    rfl

/- ──────────────────────────────────────────────────────────────────────
   routers/monitoring.py: camera, audio and behavior signals
   ────────────────────────────────────────────────────────────────────── -/

/-- risk_map of receive_camera_event (routers/monitoring.py lines 250-256);
the lookup default is penalty 1, risk low. -/
def camera_risk_map : List (String × ℚ × String) :=
  [("face_missing", 8, "high"),
   ("multi_face", 12, "critical"),
   ("gaze_deviation", 3, "medium"),
   ("head_pose", 2, "low"),
   ("face_detected", 0, "none")]

def camera_risk_info (event_type : String) : ℚ × String :=
  (pyDictGet? camera_risk_map event_type).getD (1, "low")

/-- risk_map of receive_audio_event (routers/monitoring.py lines 315-320);
the lookup default is penalty 0, risk low. -/
def audio_risk_map : List (String × ℚ × String) :=
  [("multiple_voices", 10, "critical"),
   ("voice_detected", 0, "none"),
   ("background_noise", 1, "low"),
   ("silence", 0, "none")]

def audio_risk_info (event_type : String) : ℚ × String :=
  (pyDictGet? audio_risk_map event_type).getD (0, "low")

/-- risk_map of receive_behavior_event (routers/monitoring.py lines
368-377); the lookup default is penalty 1, risk low. -/
def behavior_risk_map : List (String × ℚ × String) :=
  [("mouse_idle", 1, "low"),
   ("rapid_scroll", 2, "low"),
   ("suspicious_resize", 5, "medium"),
   ("extension_detected", 15, "critical"),
   ("devtools_open", 20, "critical"),
   ("clipboard_paste", 4, "medium"),
   ("tab_switch", 6, "high"),
   ("window_blur", 5, "high")]

def behavior_risk_info (event_type : String) : ℚ × String :=
  (pyDictGet? behavior_risk_map event_type).getD (1, "low")

/-- The fields of the JSON response of the three signal endpoints together
with the resulting attempt trust score: every request is processed
(accepted); trust_adjustment is the rounded applied delta. -/
structure SignalOutcome where
  processed : Bool
  risk_level : String
  trust_adjustment : ℚ
  new_trust_score : ℚ
deriving DecidableEq

/-- Score effect of receive_camera_event (routers/monitoring.py lines
277-299) on an owned attempt: a positive table penalty is scaled by
(1 - confidence * 0.3) and applied floored at 0. -/
def receive_camera_event_core (event_type : String) (confidence trust_score : ℚ) :
    SignalOutcome :=
  let ri := camera_risk_info event_type
  if ri.1 > 0 then
    let penalty := ri.1 * (1 - confidence * 0.3)
    ⟨true, ri.2, pyRound (-penalty) 2, max 0 (trust_score - penalty)⟩
  else ⟨true, ri.2, pyRound 0 2, trust_score⟩

/-- Score effect of receive_audio_event (routers/monitoring.py lines
337-352) on an owned attempt: a positive table penalty is applied flat. -/
def receive_audio_event_core (event_type : String) (trust_score : ℚ) :
    SignalOutcome :=
  let ri := audio_risk_info event_type
  if ri.1 > 0 then
    ⟨true, ri.2, pyRound (-ri.1) 2, max 0 (trust_score - ri.1)⟩
  else ⟨true, ri.2, pyRound 0 2, trust_score⟩

/-- Score effect of receive_behavior_event (routers/monitoring.py lines
390-414) on an owned attempt. -/
def receive_behavior_event_core (event_type : String) (trust_score : ℚ) :
    SignalOutcome :=
  let ri := behavior_risk_info event_type
  if ri.1 > 0 then
    ⟨true, ri.2, pyRound (-ri.1) 2, max 0 (trust_score - ri.1)⟩
  else ⟨true, ri.2, pyRound 0 2, trust_score⟩

/-- The penalties table of get_violation_penalty
(services/trust_score.py lines 97-119); the lookup default is 2. -/
def violation_penalties : List (String × ℚ) :=
  [("tab_switch", 5), ("window_blur", 3), ("devtools_open", 15),
   ("devtools_attempt", 10), ("copy_paste", 8), ("clipboard_attempt", 5),
   ("paste_detected", 10), ("fullscreen_exit", 10), ("gaze_deviation", 3),
   ("face_missing", 10), ("camera_face_missing", 10), ("multi_face", 15),
   ("camera_multi_face", 15), ("voice_mismatch", 10),
   ("audio_multiple_voices", 12), ("typing_anomaly", 8), ("burst_typing", 5),
   ("high_wpm", 7), ("code_entropy_anomaly", 10), ("large_paste", 12),
   ("idle_timeout", 3)]

/-- Embedding of get_violation_penalty (services/trust_score.py lines
95-120). -/
def get_violation_penalty (event_type : String) : ℚ :=
  (pyDictGet? violation_penalties event_type).getD 2

lemma pyRound_zero (n : ℕ) : pyRound 0 n = 0 := by
  unfold pyRound pyRoundInt
  norm_num

/-- Claim C5 counterexample: the audio event type humming is not in the
audio lookup table; the submission is accepted, but the applied default
penalty is zero, not strictly positive — the trust score is unchanged. -/
theorem unknown_audio_event_zero_penalty :
    (receive_audio_event_core "humming" 100).processed = true ∧
    (receive_audio_event_core "humming" 100).trust_adjustment = 0 ∧
    (receive_audio_event_core "humming" 100).new_trust_score = 100 ∧
    ¬ (0 < 100 - (receive_audio_event_core "humming" 100).new_trust_score) := by
  have h : audio_risk_info "humming" = (0, "low") := by decide
  have hif : receive_audio_event_core "humming" 100 =
      ⟨true, "low", pyRound 0 2, 100⟩ := by
    simp only [receive_audio_event_core, h]
    norm_num
  rw [hif]
  refine ⟨rfl, pyRound_zero 2, rfl, by norm_num⟩

/-- Claim C5 as amended: an event type absent from every lookup table is
accepted by all three signal endpoints; the camera endpoint applies the
strictly positive default penalty 1 scaled by confidence, the behavior
endpoint applies the strictly positive default penalty 1, and
get_violation_penalty defaults to 2, but the audio endpoint's default
penalty is 0, so an unknown audio event leaves the trust score unchanged. -/
theorem unknown_event_default_penalty_spec (e : String) (conf ts : ℚ)
    (hcam : pyDictGet? camera_risk_map e = none)
    (hbeh : pyDictGet? behavior_risk_map e = none)
    (haud : pyDictGet? audio_risk_map e = none)
    (hflat : pyDictGet? violation_penalties e = none)
    (hc1 : conf ≤ 1) (hts : 0 < ts) :
    camera_risk_info e = (1, "low") ∧
    (0 : ℚ) < 1 * (1 - conf * 0.3) ∧
    (receive_camera_event_core e conf ts).processed = true ∧
    (receive_camera_event_core e conf ts).new_trust_score < ts ∧
    behavior_risk_info e = (1, "low") ∧
    (receive_behavior_event_core e ts).processed = true ∧
    (receive_behavior_event_core e ts).new_trust_score < ts ∧
    get_violation_penalty e = 2 ∧
    audio_risk_info e = (0, "low") ∧
    (receive_audio_event_core e ts).processed = true ∧
    (receive_audio_event_core e ts).trust_adjustment = 0 ∧
    (receive_audio_event_core e ts).new_trust_score = ts := by
  have hcame : camera_risk_info e = (1, "low") := by
    unfold camera_risk_info; rw [hcam]; rfl
  have hbehe : behavior_risk_info e = (1, "low") := by
    unfold behavior_risk_info; rw [hbeh]; rfl
  have haude : audio_risk_info e = (0, "low") := by
    unfold audio_risk_info; rw [haud]; rfl
  have hpen : (0 : ℚ) < 1 * (1 - conf * 0.3) := by nlinarith
  have hcam2 : (receive_camera_event_core e conf ts).new_trust_score =
      max 0 (ts - 1 * (1 - conf * 0.3)) := by
    simp only [receive_camera_event_core, hcame]
    rw [if_pos (by norm_num)]
  have hbeh2 : (receive_behavior_event_core e ts).new_trust_score =
      max 0 (ts - 1) := by
    simp only [receive_behavior_event_core, hbehe]
    rw [if_pos (by norm_num)]
  have haud2 : receive_audio_event_core e ts = ⟨true, "low", pyRound 0 2, ts⟩ := by
    simp only [receive_audio_event_core, haude]
    norm_num
  refine ⟨hcame, hpen, ?_, ?_, hbehe, ?_, ?_, ?_, haude, ?_, ?_, ?_⟩
  · simp only [receive_camera_event_core, hcame]
    rw [if_pos (by norm_num)]
  · rw [hcam2, max_lt_iff]
    exact ⟨hts, by linarith⟩
  · simp only [receive_behavior_event_core, hbehe]
    rw [if_pos (by norm_num)]
  · rw [hbeh2, max_lt_iff]
    exact ⟨hts, by linarith⟩
  · unfold get_violation_penalty; rw [hflat]; rfl
  · rw [haud2]
  · rw [haud2]; exact pyRound_zero 2
  · rw [haud2]

theorem unknown_event_default_penalty_spec_witness :
    camera_risk_info "humming" = (1, "low") ∧
    (0 : ℚ) < 1 * (1 - 1 * 0.3) ∧
    (receive_camera_event_core "humming" 1 100).processed = true ∧
    (receive_camera_event_core "humming" 1 100).new_trust_score < 100 ∧
    behavior_risk_info "humming" = (1, "low") ∧
    (receive_behavior_event_core "humming" 100).processed = true ∧
    (receive_behavior_event_core "humming" 100).new_trust_score < 100 ∧
    get_violation_penalty "humming" = 2 ∧
    audio_risk_info "humming" = (0, "low") ∧
    (receive_audio_event_core "humming" 100).processed = true ∧
    (receive_audio_event_core "humming" 100).trust_adjustment = 0 ∧
    (receive_audio_event_core "humming" 100).new_trust_score = 100 :=
  unknown_event_default_penalty_spec "humming" 1 100
    (by decide) (by decide) (by decide) (by decide) (by norm_num) (by norm_num)

/- ──────────────────────────────────────────────────────────────────────
   routers/websocket.py: ConnectionManager
   ────────────────────────────────────────────────────────────────────── -/

/-- A live transport endpoint, identified by a number. -/
abbrev Observer := ℕ

/-- State of the ConnectionManager (routers/websocket.py lines 17-24):
channel name to member set (modelled as a duplicate-free list) and the
websocket to user-info map. -/
structure ConnectionManager where
  channels : List (String × List Observer)
  user_map : List (Observer × String)
deriving DecidableEq

/-- Python set.add on the member list. -/
def setAdd (l : List Observer) (o : Observer) : List Observer :=
  if o ∈ l then l else l ++ [o]

/-- Embedding of ConnectionManager.connect (routers/websocket.py lines
26-31): create the channel entry if absent, add the websocket to its member
set, and record the user info. -/
def ConnectionManager.connect (m : ConnectionManager) (ws : Observer)
    (channel : String) (user_info : String) : ConnectionManager :=
  ⟨pyDictSet m.channels channel
     (setAdd ((pyDictGet? m.channels channel).getD []) ws),
   pyDictSet m.user_map ws user_info⟩

/-- Embedding of ConnectionManager.send_to_channel (routers/websocket.py
lines 40-50). Whether ws.send_json succeeds is abstracted by the alive
predicate; the returned list is the set of members the message reached, and
the dead members collected during the loop are discarded from the channel
afterwards, which leaves exactly the alive members. The function is total:
a failed delivery never escapes as an exception. -/
def ConnectionManager.send_to_channel (m : ConnectionManager) (channel : String)
    (alive : Observer → Bool) : ConnectionManager × List Observer :=
  match pyDictGet? m.channels channel with
  | none => (m, [])
  | some members =>
    (⟨pyDictSet m.channels channel (members.filter alive), m.user_map⟩,
     members.filter alive)

/-- Claim C8: a broadcast reaches every member of the channel that is alive
at call time; a member whose delivery fails is not delivered to, is pruned
from the channel membership, and does not prevent delivery to the remaining
live members (the delivered list is exactly the alive members, in order). -/
theorem send_to_channel_spec (m : ConnectionManager) (channel : String)
    (alive : Observer → Bool) (members : List Observer)
    (hm : pyDictGet? m.channels channel = some members) :
    ((m.send_to_channel channel alive).2 = members.filter alive) ∧
    (∀ o ∈ members, alive o = true → o ∈ (m.send_to_channel channel alive).2) ∧
    (pyDictGet? ((m.send_to_channel channel alive).1.channels) channel =
      some (members.filter alive)) ∧
    (∀ o ∈ members, alive o = false →
      o ∉ (m.send_to_channel channel alive).2 ∧
      ∀ mem', pyDictGet? ((m.send_to_channel channel alive).1.channels) channel =
        some mem' → o ∉ mem') := by
  have hsend : m.send_to_channel channel alive =
      (⟨pyDictSet m.channels channel (members.filter alive), m.user_map⟩,
       members.filter alive) := by
    unfold ConnectionManager.send_to_channel
    rw [hm]
  refine ⟨by rw [hsend], ?_, ?_, ?_⟩
  · intro o ho ha
    rw [hsend]
    exact List.mem_filter.mpr ⟨ho, ha⟩
  · rw [hsend]
    exact pyDictGet_set_self m.channels channel (members.filter alive)
  · intro o _ ha
    constructor
    · rw [hsend]
      intro hmem
      have := (List.mem_filter.mp hmem).2
      rw [ha] at this
      exact Bool.false_ne_true this
    · intro mem' hmem'
      rw [hsend] at hmem'
      rw [pyDictGet_set_self] at hmem'
      rw [Option.some.injEq] at hmem'
      subst hmem'
      intro hmem
      have := (List.mem_filter.mp hmem).2
      rw [ha] at this
      exact Bool.false_ne_true this

theorem send_to_channel_spec_witness :
    ((ConnectionManager.mk [("exam:1", [1, 2])] []).send_to_channel "exam:1"
      (fun o => o == 1)).2 = [1] ∧
    (1 : Observer) ∈ ((ConnectionManager.mk [("exam:1", [1, 2])] []).send_to_channel
      "exam:1" (fun o => o == 1)).2 ∧
    pyDictGet? (((ConnectionManager.mk [("exam:1", [1, 2])] []).send_to_channel
      "exam:1" (fun o => o == 1)).1.channels) "exam:1" = some [1] :=
  have h := send_to_channel_spec (ConnectionManager.mk [("exam:1", [1, 2])] [])
    "exam:1" (fun o => o == 1) [1, 2] rfl
  ⟨h.1, h.2.1 1 (by decide) (by decide), h.2.2.1⟩

lemma setAdd_mem (l : List Observer) (o : Observer) : o ∈ setAdd l o := by
  unfold setAdd
  split_ifs with h
  · exact h
  · exact List.mem_append_right _ (List.mem_singleton.mpr rfl)

lemma setAdd_idem (l : List Observer) (o : Observer) :
    setAdd (setAdd l o) o = setAdd l o := by
  show (if o ∈ setAdd l o then setAdd l o else setAdd l o ++ [o]) = setAdd l o
  rw [if_pos (setAdd_mem l o)]

lemma count_setAdd (l : List Observer) (o : Observer) (h : l.count o ≤ 1) :
    (setAdd l o).count o = 1 := by
  unfold setAdd
  split_ifs with hmem
  · have h1 : 0 < l.count o := List.count_pos_iff.mpr hmem
    omega
  · have h0 : l.count o = 0 := List.count_eq_zero.mpr hmem
    rw [List.count_append, h0]
    simp

lemma count_filter_true {α : Type} [DecidableEq α] (p : α → Bool) (a : α)
    (hp : p a = true) (l : List α) : (l.filter p).count a = l.count a := by
  induction l with
  | nil => rfl
  | cons x xs ih =>
    by_cases hx : p x = true
    · rw [List.filter_cons_of_pos hx, List.count_cons, List.count_cons, ih]
    · have hne : ¬ (x = a) := fun he => hx (he ▸ hp)
      rw [List.filter_cons_of_neg (by simpa using hx), List.count_cons, ih]
      simp [hne]

/-- Claim C9: connecting the same observer to the same channel twice leaves
the manager exactly as connecting once (set semantics), and a broadcast on
that channel after the double join delivers exactly one message to that
observer. -/
theorem connect_idempotent_spec (m : ConnectionManager) (o : Observer)
    (ch ui : String) (alive : Observer → Bool)
    (hcount : ((pyDictGet? m.channels ch).getD []).count o ≤ 1)
    (halive : alive o = true) :
    ((m.connect o ch ui).connect o ch ui = m.connect o ch ui) ∧
    ((((m.connect o ch ui).connect o ch ui).send_to_channel ch alive).2.count o
      = 1) := by
  have hget1 : pyDictGet? (m.connect o ch ui).channels ch =
      some (setAdd ((pyDictGet? m.channels ch).getD []) o) := by
    unfold ConnectionManager.connect
    exact pyDictGet_set_self _ _ _
  have hidem : (m.connect o ch ui).connect o ch ui = m.connect o ch ui := by
    show ConnectionManager.mk
        (pyDictSet (m.connect o ch ui).channels ch
          (setAdd ((pyDictGet? (m.connect o ch ui).channels ch).getD []) o))
        (pyDictSet (m.connect o ch ui).user_map o ui) = m.connect o ch ui
    rw [hget1, Option.getD_some, setAdd_idem]
    show ConnectionManager.mk
        (pyDictSet (pyDictSet m.channels ch
          (setAdd ((pyDictGet? m.channels ch).getD []) o)) ch
          (setAdd ((pyDictGet? m.channels ch).getD []) o))
        (pyDictSet (pyDictSet m.user_map o ui) o ui) = m.connect o ch ui
    rw [pyDictSet_set_same, pyDictSet_set_same]
    rfl
  refine ⟨hidem, ?_⟩
  rw [hidem]
  have hs : ((m.connect o ch ui).send_to_channel ch alive).2 =
      (setAdd ((pyDictGet? m.channels ch).getD []) o).filter alive := by
    unfold ConnectionManager.send_to_channel
    rw [hget1]
  rw [hs, count_filter_true alive o halive, count_setAdd _ _ hcount]

theorem connect_idempotent_spec_witness :
    (((ConnectionManager.mk [] []).connect 7 "exam:9" "student").connect 7
      "exam:9" "student" = (ConnectionManager.mk [] []).connect 7 "exam:9" "student") ∧
    (((((ConnectionManager.mk [] []).connect 7 "exam:9" "student").connect 7
      "exam:9" "student").send_to_channel "exam:9" (fun _ => true)).2.count 7 = 1) :=
  connect_idempotent_spec (ConnectionManager.mk [] []) 7 "exam:9" "student"
    (fun _ => true) (by decide) rfl

/- ──────────────────────────────────────────────────────────────────────
   utils/hmac.py: sign_event and verify_event.
   The payload is modelled as a flat dict of stringified values (the
   source serializes with json.dumps, sort_keys=True, default=str) and the
   HMAC-SHA256 primitive is left uninterpreted as a function parameter:
   the structural properties below hold for every digest function, in
   particular for the real one.
   ────────────────────────────────────────────────────────────────────── -/

/-- Insert one key-value pair into a key-sorted list. -/
def insertByKey (kv : String × String) : List (String × String) →
    List (String × String)
  | [] => [kv]
  | x :: xs => if kv.1 < x.1 then kv :: x :: xs else x :: insertByKey kv xs

/-- Sort a payload by key: the stable key ordering of
json.dumps sort_keys=True. -/
def sortByKey : List (String × String) → List (String × String)
  | [] => []
  | x :: xs => insertByKey x (sortByKey xs)

/-- Canonical serialization of a payload with sorted keys (the JSON
punctuation is elided; only determinism and injectivity structure matter
here). -/
def canonicalSerialize (payload : List (String × String)) : String :=
  String.intercalate ", " ((sortByKey payload).map (fun kv => kv.1 ++ ": " ++ kv.2))

/-- Embedding of sign_event (utils/hmac.py lines 11-19) over an
uninterpreted keyed digest. -/
def sign_event (digest : String → String) (payload : List (String × String)) :
    String :=
  digest (canonicalSerialize payload)

/-- Embedding of verify_event (utils/hmac.py lines 22-25): recompute and
compare (hmac.compare_digest returns equality). -/
def verify_event (digest : String → String) (payload : List (String × String))
    (signature : String) : Bool :=
  sign_event digest payload == signature

lemma verify_sign_event_roundtrip (digest : String → String)
    (payload : List (String × String)) :
    verify_event digest payload (sign_event digest payload) = true := by
  simp [verify_event]

lemma sign_event_deterministic (digest : String → String)
    (p1 p2 : List (String × String))
    (h : canonicalSerialize p1 = canonicalSerialize p2) :
    sign_event digest p1 = sign_event digest p2 := by
  simp [sign_event, h]
